import Mathlib

/-!
Verification of the on-demand video generation subsystem of the humsafar
backend (`app/routers/video.py` and `app/services/sarvam_tts.py`).

The Python code is shallowly embedded as pure Lean functions:

* strings are Lean `String`s, with Python's `str.strip`, `str.lower` and
  slicing modelled by `pyStrip`, `pyLower`, `pySlice` over the character
  lists (ASCII whitespace and ASCII case, which covers every literal the
  router manipulates);
* `hashlib.sha256(...).hexdigest()` is a bit-faithful SHA-256 over byte
  lists (`Nat`s below 256), validated against the FIPS 180-4 test vectors;
* the module-level dict `_generation_state` is a `Registry`, a function
  from hash strings to optional job entries; a Python dict entry such as
  `{"status": "generating", "progress": 0}` is a `JobEntry` whose absent
  keys take the defaults used by the readers (`state.get("progress", 0)`,
  `state.get("message", "")`, `state.get("url")`);
* the filesystem facts the router consults (artifact files, site image
  directories, the placeholder file) are explicit state records, and the
  effectful stage calls of the background task (TTS synthesis, FFmpeg)
  are `Except`-valued oracle parameters, mirroring try/except;
* `float` arithmetic of the FFmpeg stage is modelled over `ℚ`.
-/

/- ── Python string primitives ──────────────────────────────────────────── -/

/-- Python `str.strip()` whitespace class, restricted to ASCII. -/
def isPySpace (c : Char) : Bool :=
  c = ' ' || c = '\t' || c = '\n' || c = '\r' || c = '\x0b' || c = '\x0c'

/-- Python `s.strip()`: drop leading and trailing whitespace. -/
def pyStrip (s : String) : String :=
  ⟨((s.data.dropWhile isPySpace).reverse.dropWhile isPySpace).reverse⟩

/-- Python `s.lower()` (ASCII case mapping). -/
def pyLower (s : String) : String := ⟨s.data.map Char.toLower⟩

/-- Python `s[:n]`: the first `n` characters. -/
def pySlice (s : String) (n : Nat) : String := ⟨s.data.take n⟩

/-- UTF-8 encoding of one character, as bytes. -/
def utf8Char (c : Char) : List Nat :=
  let n := c.toNat
  if n < 128 then [n]
  else if n < 2048 then [192 + n / 64, 128 + n % 64]
  else if n < 65536 then [224 + n / 4096, 128 + (n / 64) % 64, 128 + n % 64]
  else [240 + n / 262144, 128 + (n / 4096) % 64, 128 + (n / 64) % 64, 128 + n % 64]

/-- Python `s.encode()`: the UTF-8 bytes of a string. -/
def utf8Encode (s : String) : List Nat := s.data.flatMap utf8Char

/- ── SHA-256 (hashlib.sha256), FIPS 180-4, over byte lists ─────────────── -/

/-- Reduction modulo 2^32: all SHA-256 word arithmetic is 32-bit. -/
def m32 (x : Nat) : Nat := x % 4294967296

/-- Rotate a 32-bit word right by `n` bits. -/
def rotr (n x : Nat) : Nat := m32 ((x >>> n) ||| (x <<< (32 - n)))

/-- SHA-256 `Ch(x,y,z)`; `¬x` is `x XOR 0xFFFFFFFF` on 32-bit words. -/
def shaCh (x y z : Nat) : Nat := (x &&& y) ^^^ ((x ^^^ 4294967295) &&& z)

/-- SHA-256 `Maj(x,y,z)`. -/
def shaMaj (x y z : Nat) : Nat := (x &&& y) ^^^ (x &&& z) ^^^ (y &&& z)

/-- SHA-256 `Σ0`. -/
def bigSigma0 (x : Nat) : Nat := rotr 2 x ^^^ rotr 13 x ^^^ rotr 22 x

/-- SHA-256 `Σ1`. -/
def bigSigma1 (x : Nat) : Nat := rotr 6 x ^^^ rotr 11 x ^^^ rotr 25 x

/-- SHA-256 `σ0`. -/
def smallSigma0 (x : Nat) : Nat := rotr 7 x ^^^ rotr 18 x ^^^ (x >>> 3)

/-- SHA-256 `σ1`. -/
def smallSigma1 (x : Nat) : Nat := rotr 17 x ^^^ rotr 19 x ^^^ (x >>> 10)

/-- The 64 round constants of FIPS 180-4 section 4.2.2, written in decimal
(fractional cube-root bits of the first 64 primes). -/
def shaK : List Nat :=
  [1116352408, 1899447441, 3049323471, 3921009573,
   961987163, 1508970993, 2453635748, 2870763221,
   3624381080, 310598401, 607225278, 1426881987,
   1925078388, 2162078206, 2614888103, 3248222580,
   3835390401, 4022224774, 264347078, 604807628,
   770255983, 1249150122, 1555081692, 1996064986,
   2554220882, 2821834349, 2952996808, 3210313671,
   3336571891, 3584528711, 113926993, 338241895,
   666307205, 773529912, 1294757372, 1396182291,
   1695183700, 1986661051, 2177026350, 2456956037,
   2730485921, 2820302411, 3259730800, 3345764771,
   3516065817, 3600352804, 4094571909, 275423344,
   430227734, 506948616, 659060556, 883997877,
   958139571, 1322822218, 1537002063, 1747873779,
   1955562222, 2024104815, 2227730452, 2361852424,
   2428436474, 2756734187, 3204031479, 3329325298]

/-- The eight 32-bit working variables of the SHA-256 state. -/
structure Hash8 where
  a : Nat
  b : Nat
  c : Nat
  d : Nat
  e : Nat
  f : Nat
  g : Nat
  h : Nat
deriving DecidableEq

/-- The initial hash value of FIPS 180-4 section 5.3.3, written in decimal
(fractional square-root bits of the first 8 primes). -/
def shaH0 : Hash8 :=
  ⟨1779033703, 3144134277, 1013904242, 2773480762, 1359893119, 2600822924, 528734635, 1541459225⟩

/-- SHA-256 padding: `0x80`, zeros to 56 mod 64, then the 64-bit big-endian
bit length. -/
def padMessage (msg : List Nat) : List Nat :=
  let L := msg.length
  let z := (119 - L % 64) % 64
  msg ++ 0x80 :: List.replicate z 0 ++
    [((8 * L) >>> 56) % 256, ((8 * L) >>> 48) % 256, ((8 * L) >>> 40) % 256, ((8 * L) >>> 32) % 256,
     ((8 * L) >>> 24) % 256, ((8 * L) >>> 16) % 256, ((8 * L) >>> 8) % 256, (8 * L) % 256]

/-- Chunk a byte list into 64-byte blocks; the fuel (initially the length,
which more than covers the block count) keeps the recursion structural so
that it reduces inside the kernel. -/
def toBlocksAux : Nat → List Nat → List (List Nat)
  | 0, _ => []
  | _, [] => []
  | fuel + 1, bs => bs.take 64 :: toBlocksAux fuel (bs.drop 64)

/-- Chunk a (padded) byte list into 64-byte blocks. -/
def toBlocks (bs : List Nat) : List (List Nat) := toBlocksAux bs.length bs

/-- Big-endian 32-bit words of a block. -/
def toWords : List Nat → List Nat
  | b0 :: b1 :: b2 :: b3 :: rest =>
      (b0 * 16777216 + b1 * 65536 + b2 * 256 + b3) :: toWords rest
  | _ => []

/-- One message-schedule extension step: append `w[n]` computed from
`w[n-2]`, `w[n-7]`, `w[n-15]`, `w[n-16]`. -/
def scheduleStep (w : List Nat) : List Nat :=
  let n := w.length
  w ++ [m32 (smallSigma1 (w.getD (n - 2) 0) + w.getD (n - 7) 0 +
             smallSigma0 (w.getD (n - 15) 0) + w.getD (n - 16) 0)]

/-- Extend the 16 block words to the 64-entry message schedule. -/
def extendWords (w : List Nat) : List Nat :=
  (List.range 48).foldl (fun acc _ => scheduleStep acc) w

/-- One SHA-256 compression round. -/
def compressRound (s : Hash8) (kw : Nat × Nat) : Hash8 :=
  let t1 := m32 (s.h + bigSigma1 s.e + shaCh s.e s.f s.g + kw.1 + kw.2)
  let t2 := m32 (bigSigma0 s.a + shaMaj s.a s.b s.c)
  ⟨m32 (t1 + t2), s.a, s.b, s.c, m32 (s.d + t1), s.e, s.f, s.g⟩

/-- Compress one 64-byte block into the running hash value. -/
def compressBlock (s : Hash8) (block : List Nat) : Hash8 :=
  let w := extendWords (toWords block)
  let t := (shaK.zip w).foldl compressRound s
  ⟨m32 (s.a + t.a), m32 (s.b + t.b), m32 (s.c + t.c), m32 (s.d + t.d),
   m32 (s.e + t.e), m32 (s.f + t.f), m32 (s.g + t.g), m32 (s.h + t.h)⟩

/-- Big-endian bytes of a 32-bit word. -/
def wordBytes (x : Nat) : List Nat :=
  [(x / 16777216) % 256, (x / 65536) % 256, (x / 256) % 256, x % 256]

/-- SHA-256 digest (32 bytes) of a byte list. -/
def sha256 (msg : List Nat) : List Nat :=
  let s := (toBlocks (padMessage msg)).foldl compressBlock shaH0
  wordBytes s.a ++ wordBytes s.b ++ wordBytes s.c ++ wordBytes s.d ++
  wordBytes s.e ++ wordBytes s.f ++ wordBytes s.g ++ wordBytes s.h

/-- The lowercase hexadecimal alphabet. -/
def hexAlphabet : List Char := "0123456789abcdef".data

/-- Hex character of a nibble. -/
def hexChar (n : Nat) : Char :=
  if n = 0 then '0' else if n = 1 then '1' else if n = 2 then '2' else if n = 3 then '3'
  else if n = 4 then '4' else if n = 5 then '5' else if n = 6 then '6' else if n = 7 then '7'
  else if n = 8 then '8' else if n = 9 then '9' else if n = 10 then 'a' else if n = 11 then 'b'
  else if n = 12 then 'c' else if n = 13 then 'd' else if n = 14 then 'e' else 'f'

/-- Two hex characters of a byte. -/
def byteHex (b : Nat) : List Char := [hexChar ((b / 16) % 16), hexChar (b % 16)]

/-- Model of `hashlib.sha256(msg).hexdigest()` as a character list (64 hex
chars). -/
def hexdigest (msg : List Nat) : List Char := (sha256 msg).flatMap byteHex

/- ── app/routers/video.py: fingerprint and URL helpers ─────────────────── -/

/-- The f-string `raw` of `_make_hash`:
`f"{site_id}::{prompt.strip().lower()}::{bot_text.strip()[:200]}"`. -/
def rawFingerprintInput (prompt bot_text site_id : String) : String :=
  site_id ++ "::" ++ pyLower (pyStrip prompt) ++ "::" ++ pySlice (pyStrip bot_text) 200

/-- The fingerprint `_make_hash`:
`hashlib.sha256(raw.encode()).hexdigest()[:24]`. -/
def _make_hash (prompt bot_text site_id : String) : String :=
  pySlice ⟨hexdigest (utf8Encode (rawFingerprintInput prompt bot_text site_id))⟩ 24

/-- The url builder `_video_url`: join `os.getenv("BASE_URL", <default>)`
with the
storage-relative subpath.  `baseUrlEnv` is the optional `BASE_URL`
environment variable. -/
def _video_url (baseUrlEnv : Option String) (subpath : String) : String :=
  (baseUrlEnv.getD "https://humsafar-backend-59ic.onrender.com") ++ "/static/videos/" ++ subpath

/- ── app/routers/video.py: request/response and server state ───────────── -/

/-- Request body of `POST /generate-video` (`GenerateVideoRequest`). -/
structure GenerateVideoRequest where
  prompt : String
  bot_text : String
  site_id : String
  site_name : String
deriving DecidableEq

/-- Response of `POST /generate-video` (`GenerateVideoResponse`). -/
structure GenerateVideoResponse where
  hash : String
  status : String
  url : Option String := none
deriving DecidableEq

/-- Response of `GET /video-status/{id_or_hash}` (`VideoStatusResponse`). -/
structure VideoStatusResponse where
  status : String
  url : Option String := none
  progress : Nat := 0
  message : String := ""
deriving DecidableEq

/-- One value of the `_generation_state` dict.  Keys the Python dict omits
take the defaults its readers use: `state.get("progress", 0)`,
`state.get("message", "")`, `state.get("url")` (i.e. `none`). -/
structure JobEntry where
  status : String
  progress : Nat := 0
  message : String := ""
  url : Option String := none
deriving DecidableEq

/-- The `_generation_state` dict: fingerprint hash → job entry. -/
def Registry : Type := String → Option JobEntry

/-- Assignment `_generation_state[k] = e`. -/
def Registry.set (r : Registry) (k : String) (e : JobEntry) : Registry :=
  fun k' => if k' = k then some e else r k'

/-- Deletion `del _generation_state[k]`. -/
def Registry.erase (r : Registry) (k : String) : Registry :=
  fun k' => if k' = k then none else r k'

/-- The server-side state the router consults: which `.mp4` artifacts exist
under `static/videos/prompt` and `static/videos/overview` (listed by their
id/hash stem), and the in-memory job registry. -/
structure ServerState where
  promptFiles : List String
  overviewFiles : List String
  registry : Registry

/- ── app/routers/video.py: endpoints ───────────────────────────────────── -/

/-- Endpoint `GET /video-status/{id_or_hash}` (`get_video_status`). -/
def get_video_status (baseUrlEnv : Option String) (st : ServerState)
    (id_or_hash : String) : VideoStatusResponse :=
  if id_or_hash ∈ st.promptFiles then
    { status := "ready",
      url := some (_video_url baseUrlEnv ("prompt/" ++ id_or_hash ++ ".mp4")),
      progress := 100 }
  else if id_or_hash ∈ st.overviewFiles then
    { status := "ready",
      url := some (_video_url baseUrlEnv ("overview/" ++ id_or_hash ++ ".mp4")),
      progress := 100 }
  else
    match st.registry id_or_hash with
    | some state =>
        { status := state.status, progress := state.progress,
          message := state.message, url := state.url }
    | none => { status := "not_started", progress := 0 }

/-- Outcome of one `POST /generate-video` call: the HTTP response, the
state after the handler returns, and whether a background pipeline task
was enqueued (`background_tasks.add_task`). -/
structure SubmitOutcome where
  response : GenerateVideoResponse
  state : ServerState
  dispatched : Bool

/-- Lines 127-138 of `generate_video`: write the fresh
`{"status": "generating", "progress": 0}` entry, enqueue the background
task, and answer `generating`. -/
def startGeneration (st : ServerState) (video_hash : String) : SubmitOutcome :=
  { response := { hash := video_hash, status := "generating" },
    state := { st with
               registry := st.registry.set video_hash { status := "generating", progress := 0 } },
    dispatched := true }

/-- Endpoint `POST /generate-video` (`generate_video`). -/
def generate_video (baseUrlEnv : Option String) (st : ServerState)
    (req : GenerateVideoRequest) : SubmitOutcome :=
  let video_hash := _make_hash req.prompt req.bot_text req.site_id
  if video_hash ∈ st.promptFiles then
    { response := { hash := video_hash, status := "ready",
                    url := some (_video_url baseUrlEnv ("prompt/" ++ video_hash ++ ".mp4")) },
      state := st, dispatched := false }
  else
    match st.registry video_hash with
    | some state =>
        if state.status = "failed" then
          startGeneration { st with registry := st.registry.erase video_hash } video_hash
        else
          { response := { hash := video_hash, status := state.status, url := state.url },
            state := st, dispatched := false }
    | none => startGeneration st video_hash

/- ── app/routers/video.py: scene selection (_fetch_monument_images) ────── -/

/-- The relative path of the cached placeholder image
(`static/images/_placeholder/blank.jpg`). -/
def placeholderRelPath : String := "static/images/_placeholder/blank.jpg"

/-- The filesystem facts scene selection consults: whether
`static/images/<site_id>` exists, which `*.jpg` names its glob finds there,
whether the placeholder file exists, and `Path.resolve` (relative path →
absolute path). -/
structure MonumentFS where
  dirExists : String → Bool
  jpgFiles : String → List String
  placeholderExists : Bool
  resolve : String → String

/-- Python `sorted` on path names: lexicographic by code points. -/
def pySorted (l : List String) : List String := List.insertionSort (· ≤ ·) l

/-- Result of `_fetch_monument_images`: the returned absolute paths, the
filesystem afterwards, and whether the placeholder file was written by this
call. -/
structure FetchImagesResult where
  paths : List String
  fs : MonumentFS
  wrotePlaceholder : Bool

/-- Lines 227-237 of `_fetch_monument_images`: create the placeholder only
when it does not already exist, then return its absolute path. -/
def fetchPlaceholder (fs : MonumentFS) : FetchImagesResult :=
  if fs.placeholderExists then
    { paths := [fs.resolve placeholderRelPath], fs := fs, wrotePlaceholder := false }
  else
    { paths := [fs.resolve placeholderRelPath],
      fs := { fs with placeholderExists := true }, wrotePlaceholder := true }

/-- Scene selection `_fetch_monument_images` (the `site_name` argument is
unused by its
body). -/
def _fetch_monument_images (fs : MonumentFS) (site_id : String) : FetchImagesResult :=
  if fs.dirExists site_id then
    let paths := (pySorted (fs.jpgFiles site_id)).take 5
    if paths.isEmpty then fetchPlaceholder fs
    else { paths := paths.map fs.resolve, fs := fs, wrotePlaceholder := false }
  else fetchPlaceholder fs

/- ── app/routers/video.py: FFmpeg stage arithmetic (_run_ffmpeg) ───────── -/

/-- Local `total_duration` in `_run_ffmpeg`: the probed audio duration, or
the
30-second fallback when `ffprobe` fails (the try/except around the probe).
`probeResult` is the outcome of the `ffprobe` call. -/
def total_duration (probeResult : Except String ℚ) : ℚ :=
  match probeResult with
  | .ok d => d
  | .error _ => 30

/-- Local `duration_per_image = max(total_duration / num_images, 2.0)`. -/
def duration_per_image (probeResult : Except String ℚ) (num_images : Nat) : ℚ :=
  max (total_duration probeResult / num_images) 2

/- ── app/routers/video.py: background task (_generate_video_task) ──────── -/

/-- Outcomes of the effectful stage calls inside `_generate_video_task`:
the TTS narration call (`_generate_narration`), the FFmpeg invocation
(`_run_ffmpeg`, whose `RuntimeError` text is the `error` payload), and the
`output_path.exists()` check after encoding. -/
structure PipelineEffects where
  narration : Except String Unit
  encode : Except String Unit
  outputExists : Bool

/-- The local `_update(progress, message)` of `_generate_video_task`. -/
def taskUpdate (r : Registry) (video_hash : String) (progress : Nat) (message : String) :
    Registry :=
  r.set video_hash { status := "generating", progress := progress, message := message }

/-- The `except` branch of `_generate_video_task`. -/
def taskFail (r : Registry) (video_hash : String) (msg : String) : Registry :=
  r.set video_hash { status := "failed", progress := 0, message := msg }

/-- Background task `_generate_video_task`: the stage sequence with its
registry updates;
returns the registry and filesystem after the task finishes.  The `prompt`,
`bot_text` and `site_name` arguments of the Python function only feed the
stage calls abstracted by `eff`, so they are not repeated here. -/
def _generate_video_task (baseUrlEnv : Option String) (eff : PipelineEffects)
    (fs : MonumentFS) (video_hash site_id : String) (r : Registry) :
    Registry × MonumentFS :=
  let r := taskUpdate r video_hash 5 "Analyzing content…"
  let r := taskUpdate r video_hash 10 "Generating narration…"
  match eff.narration with
  | .error msg => (taskFail r video_hash msg, fs)
  | .ok _ =>
    let r := taskUpdate r video_hash 40 "Narration ready"
    let r := taskUpdate r video_hash 45 "Crafting cinematic scenes…"
    let fetched := _fetch_monument_images fs site_id
    let r := taskUpdate r video_hash 60 "Scenes composed"
    let r := taskUpdate r video_hash 65 "Adding narration & visuals…"
    match eff.encode with
    | .error msg => (taskFail r video_hash msg, fetched.fs)
    | .ok _ =>
      let r := taskUpdate r video_hash 95 "Finalizing…"
      if eff.outputExists then
        (r.set video_hash
          { status := "ready", progress := 100,
            url := some (_video_url baseUrlEnv ("prompt/" ++ video_hash ++ ".mp4")) },
         fetched.fs)
      else
        (taskFail r video_hash "FFmpeg completed but output file is missing", fetched.fs)

/- ── app/services/sarvam_tts.py: synthesize text truncation ────────────── -/

/-- Constant `MAX_TTS_CHARS = 500`. -/
def MAX_TTS_CHARS : Nat := 500

/-- Everything strictly before the last `' '` of the list, or `none` when
it has no space: the list form of Python `s.rsplit(" ", 1)[0]`. -/
def beforeLastSpace : List Char → Option (List Char)
  | [] => none
  | c :: cs =>
    match beforeLastSpace cs with
    | some r => some (c :: r)
    | none => if c = ' ' then some [] else none

/-- Python `s.rsplit(" ", 1)[0]`: the part before the last space, or the
whole string when there is no space. -/
def rsplitHead (s : String) : String :=
  match beforeLastSpace s.data with
  | some r => ⟨r⟩
  | none => s

/-- Lines 50-51 of `synthesize`: the text actually sent to the TTS
provider.  Over the limit it becomes
`text[:MAX_TTS_CHARS].rsplit(" ", 1)[0] + "…"`. -/
def truncateForTTS (text : String) : String :=
  if text.length > MAX_TTS_CHARS then rsplitHead (pySlice text MAX_TTS_CHARS) ++ "…"
  else text

/- ── Registry status invariant (claims C9) ─────────────────────────────── -/

/-- The statuses the router's writers ever store in `_generation_state`. -/
def GoodEntry (e : JobEntry) : Prop :=
  e.status = "generating" ∨ e.status = "ready" ∨ e.status = "failed"

/-- Every entry of the registry has a writable status. -/
def GoodRegistry (r : Registry) : Prop :=
  ∀ k e, r k = some e → GoodEntry e

/- ── Concrete inputs for counterexamples and witnesses ─────────────────── -/

/-- Narration text ` ` followed by 200 `a`s: its first 200 characters,
trimmed, are 199 `a`s, but the code hashes its trimmed first 200
characters, which are 200 `a`s. -/
def botTextLeadingSpace : String := ⟨' ' :: List.replicate 200 'a'⟩

/-- Narration text of 199 `a`s. -/
def botTextPlain : String := ⟨List.replicate 199 'a'⟩

/-- An empty server state: no artifacts, no registry entries. -/
def emptyServerState : ServerState :=
  { promptFiles := [], overviewFiles := [], registry := fun _ => none }

/-- A concrete submission request. -/
def reqFort : GenerateVideoRequest :=
  { prompt := "Tell me about the fort", bot_text := "This fort was built in 1565.",
    site_id := "site42", site_name := "Example Fort" }

/-- A server state whose registry holds a `failed` entry for `reqFort`'s
fingerprint. -/
def failedServerState : ServerState :=
  { promptFiles := [], overviewFiles := [],
    registry := fun k =>
      if k = _make_hash reqFort.prompt reqFort.bot_text reqFort.site_id then
        some { status := "failed", message := "FFmpeg exit 1" }
      else none }

/-- A filesystem with no site images and no placeholder yet. -/
def bareMonumentFS : MonumentFS :=
  { dirExists := fun _ => false, jpgFiles := fun _ => [],
    placeholderExists := false, resolve := fun p => "/app/" ++ p }

/-- A 502-character text (with a space at position 250) for the TTS
truncation witness. -/
def longTTSText : String :=
  ⟨List.replicate 250 'a' ++ ' ' :: List.replicate 251 'b'⟩

/- ── Helper lemmas ─────────────────────────────────────────────────────── -/

/-- Reading a registry key just written. -/
theorem Registry.set_self (r : Registry) (k : String) (e : JobEntry) :
    (r.set k e) k = some e := by
  simp [Registry.set]

/-- Key shorthand: line 103 of `generate_video`. -/
def video_hash_of (req : GenerateVideoRequest) : String :=
  _make_hash req.prompt req.bot_text req.site_id

/- ── C2 ────────────────────────────────────────────────────────────────── -/

/-- C2: the status resolver answers in fixed priority order — an on-demand
(`prompt`) artifact gives `ready`/100/url; else a precomputed (`overview`)
artifact gives `ready`/100/url; else a registry entry is returned verbatim
(status, progress, message, url); else `not_started` with progress 0. -/
theorem get_video_status_priority (env : Option String) (st : ServerState) (i : String) :
    (i ∈ st.promptFiles →
      get_video_status env st i =
        { status := "ready", url := some (_video_url env ("prompt/" ++ i ++ ".mp4")),
          progress := 100 }) ∧
    (i ∉ st.promptFiles → i ∈ st.overviewFiles →
      get_video_status env st i =
        { status := "ready", url := some (_video_url env ("overview/" ++ i ++ ".mp4")),
          progress := 100 }) ∧
    (∀ e, i ∉ st.promptFiles → i ∉ st.overviewFiles → st.registry i = some e →
      get_video_status env st i =
        { status := e.status, progress := e.progress, message := e.message, url := e.url }) ∧
    (i ∉ st.promptFiles → i ∉ st.overviewFiles → st.registry i = none →
      get_video_status env st i = { status := "not_started", progress := 0 }) := by
  refine ⟨?_, ?_, ?_, ?_⟩ <;> intros <;> simp_all [get_video_status]

/-- C2 witness: on the empty state every id resolves to `not_started`. -/
theorem get_video_status_priority_witness :
    get_video_status none emptyServerState "deadbeef" =
      { status := "not_started", progress := 0 } :=
  (get_video_status_priority none emptyServerState "deadbeef").2.2.2
    (by simp [emptyServerState]) (by simp [emptyServerState]) rfl

/- ── C6 ────────────────────────────────────────────────────────────────── -/

/-- C6: the per-image display duration is `max(total_duration / num_images,
2.0)` with `total_duration` the probed audio duration or exactly 30 when
probing fails, so it is never below 2 for any image count of at least 1. -/
theorem duration_per_image_floor (probeResult : Except String ℚ) (num_images : Nat)
    (_hn : 1 ≤ num_images) :
    duration_per_image probeResult num_images =
      max (total_duration probeResult / num_images) 2 ∧
    (∀ msg, probeResult = .error msg →
      duration_per_image probeResult num_images = max (30 / (num_images : ℚ)) 2) ∧
    2 ≤ duration_per_image probeResult num_images := by
  refine ⟨rfl, ?_, le_max_right _ _⟩
  intro msg hmsg
  simp [duration_per_image, total_duration, hmsg]

/-- C6 witness: one image and a failed probe still give at least 2 seconds,
and the fallback duration 30 applies. -/
theorem duration_per_image_floor_witness :
    duration_per_image (.error "probe timed out") 1 = max (30 / (1 : ℚ)) 2 ∧
    2 ≤ duration_per_image (.error "probe timed out") 1 :=
  ⟨(duration_per_image_floor (.error "probe timed out") 1 (by norm_num)).2.1
      "probe timed out" rfl,
    (duration_per_image_floor (.error "probe timed out") 1 (by norm_num)).2.2⟩

/- ── C5 ────────────────────────────────────────────────────────────────── -/

/-- C5: after the background task runs, the registry entry for the hash is
exactly `{failed, 0, <error text>}` when any stage failed (narration error,
encoder error, or missing output file), and exactly `{ready, 100, url}` on
full success, the url being the configured base URL joined with the
artifact's storage-relative path `prompt/<hash>.mp4`. -/
theorem generate_video_task_terminal (env : Option String) (eff : PipelineEffects)
    (fs : MonumentFS) (video_hash site_id : String) (r : Registry) :
    (∀ msg, eff.narration = .error msg →
      (_generate_video_task env eff fs video_hash site_id r).1 video_hash =
        some { status := "failed", progress := 0, message := msg }) ∧
    (∀ msg, eff.narration = .ok () → eff.encode = .error msg →
      (_generate_video_task env eff fs video_hash site_id r).1 video_hash =
        some { status := "failed", progress := 0, message := msg }) ∧
    (eff.narration = .ok () → eff.encode = .ok () → eff.outputExists = false →
      (_generate_video_task env eff fs video_hash site_id r).1 video_hash =
        some { status := "failed", progress := 0,
               message := "FFmpeg completed but output file is missing" }) ∧
    (eff.narration = .ok () → eff.encode = .ok () → eff.outputExists = true →
      (_generate_video_task env eff fs video_hash site_id r).1 video_hash =
        some { status := "ready", progress := 100,
               url := some (_video_url env ("prompt/" ++ video_hash ++ ".mp4")) }) := by
  obtain ⟨narr, enc, oe⟩ := eff
  refine ⟨?_, ?_, ?_, ?_⟩ <;> intros <;>
    simp_all [_generate_video_task, taskUpdate, taskFail, Registry.set]

/-- C5 witness: a concrete failing narration stage leaves exactly the
`failed` entry with the error text. -/
theorem generate_video_task_terminal_witness :
    (_generate_video_task none ⟨.error "Sarvam TTS error 500", .ok (), true⟩
        bareMonumentFS "abc123" "site42" (fun _ => none)).1 "abc123" =
      some { status := "failed", progress := 0, message := "Sarvam TTS error 500" } :=
  (generate_video_task_terminal none ⟨.error "Sarvam TTS error 500", .ok (), true⟩
      bareMonumentFS "abc123" "site42" (fun _ => none)).1 "Sarvam TTS error 500" rfl

/- ── C1 ────────────────────────────────────────────────────────────────── -/

/-- C1: the submission endpoint dispatches a pipeline run iff no artifact
exists for the request's fingerprint and the registry holds no entry for it
with a status other than `failed`; an existing artifact short-circuits to
`ready` with the url, without dispatch or registry mutation; a non-failed
registry entry is echoed (its status and url) without a second dispatch;
and a dispatch first writes `{generating, progress 0}` and answers
`generating`. -/
theorem generate_video_dispatch_spec (env : Option String) (st : ServerState)
    (req : GenerateVideoRequest) :
    ((generate_video env st req).dispatched = true ↔
      (video_hash_of req ∉ st.promptFiles ∧
        ∀ e, st.registry (video_hash_of req) = some e → e.status = "failed")) ∧
    (video_hash_of req ∈ st.promptFiles →
      (generate_video env st req).response =
        { hash := video_hash_of req, status := "ready",
          url := some (_video_url env ("prompt/" ++ video_hash_of req ++ ".mp4")) } ∧
      (generate_video env st req).state = st ∧
      (generate_video env st req).dispatched = false) ∧
    (∀ e, video_hash_of req ∉ st.promptFiles →
      st.registry (video_hash_of req) = some e → e.status ≠ "failed" →
      (generate_video env st req).response =
        { hash := video_hash_of req, status := e.status, url := e.url } ∧
      (generate_video env st req).state = st ∧
      (generate_video env st req).dispatched = false) ∧
    ((generate_video env st req).dispatched = true →
      (generate_video env st req).state.registry (video_hash_of req) =
        some { status := "generating", progress := 0 } ∧
      (generate_video env st req).response.status = "generating") := by
  by_cases hmem : video_hash_of req ∈ st.promptFiles
  · refine ⟨?_, ?_, ?_, ?_⟩ <;>
      simp_all [generate_video, video_hash_of, startGeneration]
  · rcases hreg : st.registry (video_hash_of req) with _ | e
    · refine ⟨?_, ?_, ?_, ?_⟩ <;>
        simp_all [generate_video, video_hash_of, startGeneration, Registry.set]
    · by_cases hstatus : e.status = "failed" <;>
        refine ⟨?_, ?_, ?_, ?_⟩ <;>
        simp_all [generate_video, video_hash_of, startGeneration, Registry.set]

/-- C1 witness: on the empty state a request dispatches, writes the
`generating` entry and answers `generating`. -/
theorem generate_video_dispatch_spec_witness :
    (generate_video none emptyServerState reqFort).dispatched = true ∧
    (generate_video none emptyServerState reqFort).state.registry (video_hash_of reqFort) =
      some { status := "generating", progress := 0 } ∧
    (generate_video none emptyServerState reqFort).response.status = "generating" := by
  have h := generate_video_dispatch_spec none emptyServerState reqFort
  have hd : (generate_video none emptyServerState reqFort).dispatched = true :=
    h.1.mpr ⟨by simp [emptyServerState], fun e he => by simp [emptyServerState] at he⟩
  exact ⟨hd, h.2.2.2 hd⟩

/- ── C4 ────────────────────────────────────────────────────────────────── -/

/-- C4: a submission whose fingerprint has no artifact but a `failed`
registry entry deletes that entry and starts fresh — the registry ends with
the entry replaced by `{generating, progress 0}`, a pipeline is dispatched,
and the response is `generating`, never the stale `failed`. -/
theorem generate_video_failed_retry (env : Option String) (st : ServerState)
    (req : GenerateVideoRequest) (e : JobEntry)
    (hmem : video_hash_of req ∉ st.promptFiles)
    (hreg : st.registry (video_hash_of req) = some e)
    (hfail : e.status = "failed") :
    (generate_video env st req).dispatched = true ∧
    (generate_video env st req).state.registry =
      (st.registry.erase (video_hash_of req)).set (video_hash_of req)
        { status := "generating", progress := 0 } ∧
    (generate_video env st req).state.registry (video_hash_of req) =
      some { status := "generating", progress := 0 } ∧
    (generate_video env st req).response.status = "generating" ∧
    (generate_video env st req).response.status ≠ "failed" := by
  refine ⟨?_, ?_, ?_, ?_, ?_⟩ <;>
    simp_all [generate_video, video_hash_of, startGeneration, Registry.set]

/-- C4 witness: retrying `reqFort` over its concrete `failed` entry
dispatches anew and answers `generating`. -/
theorem generate_video_failed_retry_witness :
    (generate_video none failedServerState reqFort).dispatched = true ∧
    (generate_video none failedServerState reqFort).response.status = "generating" := by
  have h := generate_video_failed_retry none failedServerState reqFort
    { status := "failed", message := "FFmpeg exit 1" }
    (by simp [failedServerState]) (by simp [failedServerState, video_hash_of]) rfl
  exact ⟨h.1, h.2.2.2.1⟩


/- ── C9 ────────────────────────────────────────────────────────────────── -/

/-- Writing an entry with a writable status preserves the registry status
invariant. -/
theorem goodRegistry_set {r : Registry} {k : String} {e : JobEntry}
    (hr : GoodRegistry r) (he : GoodEntry e) : GoodRegistry (r.set k e) := by
  intro k' e' h'
  unfold Registry.set at h'
  split at h'
  · cases h'; exact he
  · exact hr _ _ h'

/-- Deleting an entry preserves the registry status invariant. -/
theorem goodRegistry_erase {r : Registry} {k : String}
    (hr : GoodRegistry r) : GoodRegistry (r.erase k) := by
  intro k' e' h'
  unfold Registry.erase at h'
  split at h'
  · cases h'
  · exact hr _ _ h'

/-- C9: provided every registry entry's status is one of `generating`,
`ready`, `failed` (the only statuses the code ever stores, an invariant the
endpoint and the background task preserve, as the second and third
conjuncts state), `POST /generate-video` answers with status `generating`
or `ready` — never `failed` or `not_started` — and raises nothing (the
model is a total function). -/
theorem generate_video_status_safety (env : Option String) (st : ServerState)
    (req : GenerateVideoRequest) (hgood : GoodRegistry st.registry) :
    ((generate_video env st req).response.status = "generating" ∨
      (generate_video env st req).response.status = "ready") ∧
    GoodRegistry (generate_video env st req).state.registry ∧
    (∀ eff fs video_hash site_id r, GoodRegistry r →
      GoodRegistry (_generate_video_task env eff fs video_hash site_id r).1) := by
  refine ⟨?_, ?_, ?_⟩
  · by_cases hmem : video_hash_of req ∈ st.promptFiles
    · simp_all [generate_video, video_hash_of, startGeneration]
    · rcases hreg : st.registry (video_hash_of req) with _ | e
      · simp_all [generate_video, video_hash_of, startGeneration]
      · by_cases hstatus : e.status = "failed"
        · simp_all [generate_video, video_hash_of, startGeneration]
        · rcases hgood _ _ hreg with h | h | h <;>
            simp_all [generate_video, video_hash_of, startGeneration]
  · by_cases hmem : video_hash_of req ∈ st.promptFiles
    · have hst : (generate_video env st req).state = st := by
        simp_all [generate_video, video_hash_of]
      rw [hst]; exact hgood
    · rcases hreg : st.registry (video_hash_of req) with _ | e
      · have hst : (generate_video env st req).state.registry =
            st.registry.set (video_hash_of req) { status := "generating", progress := 0 } := by
          simp_all [generate_video, video_hash_of, startGeneration]
        rw [hst]; exact goodRegistry_set hgood (Or.inl rfl)
      · by_cases hstatus : e.status = "failed"
        · have hst : (generate_video env st req).state.registry =
              (st.registry.erase (video_hash_of req)).set (video_hash_of req)
                { status := "generating", progress := 0 } := by
            simp_all [generate_video, video_hash_of, startGeneration]
          rw [hst]; exact goodRegistry_set (goodRegistry_erase hgood) (Or.inl rfl)
        · have hst : (generate_video env st req).state = st := by
            simp_all [generate_video, video_hash_of]
          rw [hst]; exact hgood
  · intro eff fs video_hash site_id r hr
    obtain ⟨narr, enc, oe⟩ := eff
    rcases narr with msg | ⟨⟩
    · simp only [_generate_video_task, taskUpdate, taskFail]
      refine goodRegistry_set (goodRegistry_set (goodRegistry_set hr ?_) ?_) ?_ <;>
        simp [GoodEntry]
    · rcases enc with msg | ⟨⟩
      · simp only [_generate_video_task, taskUpdate, taskFail]
        refine goodRegistry_set (goodRegistry_set (goodRegistry_set (goodRegistry_set
          (goodRegistry_set (goodRegistry_set (goodRegistry_set hr ?_) ?_) ?_) ?_) ?_) ?_) ?_ <;>
          simp [GoodEntry]
      · rcases oe with _ | _
        · simp only [_generate_video_task, taskUpdate, taskFail, Bool.false_eq_true, if_false]
          refine goodRegistry_set (goodRegistry_set (goodRegistry_set (goodRegistry_set
            (goodRegistry_set (goodRegistry_set (goodRegistry_set (goodRegistry_set hr
              ?_) ?_) ?_) ?_) ?_) ?_) ?_) ?_ <;>
            simp [GoodEntry]
        · simp only [_generate_video_task, taskUpdate, taskFail, if_true]
          refine goodRegistry_set (goodRegistry_set (goodRegistry_set (goodRegistry_set
            (goodRegistry_set (goodRegistry_set (goodRegistry_set (goodRegistry_set hr
              ?_) ?_) ?_) ?_) ?_) ?_) ?_) ?_ <;>
            simp [GoodEntry]

/-- C9 witness: on the empty (hence well-statused) registry the response
status is `generating` or `ready`. -/
theorem generate_video_status_safety_witness :
    (generate_video none emptyServerState reqFort).response.status = "generating" ∨
    (generate_video none emptyServerState reqFort).response.status = "ready" :=
  (generate_video_status_safety none emptyServerState reqFort
    (fun _ e he => by simp [emptyServerState] at he)).1

/- ── C7 ────────────────────────────────────────────────────────────────── -/

/-- Sorting never changes emptiness. -/
theorem pySorted_eq_nil_iff (l : List String) : pySorted l = [] ↔ l = [] := by
  have hlen : (pySorted l).length = l.length := (List.perm_insertionSort _ l).length_eq
  constructor
  · intro h
    have h2 := congrArg List.length h
    rw [hlen] at h2
    exact List.length_eq_zero.mp h2
  · rintro rfl
    rfl

/-- Sorting never changes emptiness: the first five sorted names are empty
exactly when the glob found nothing. -/
theorem pySorted_take5_eq_nil_iff (l : List String) : (pySorted l).take 5 = [] ↔ l = [] := by
  have hlen : (pySorted l).length = l.length := (List.perm_insertionSort _ l).length_eq
  constructor
  · intro h
    have h2 := congrArg List.length h
    simp only [List.length_take, hlen, List.length_nil] at h2
    exact List.length_eq_zero.mp (by omega)
  · rintro rfl
    rfl

/-- When the site directory is absent or its glob is empty, scene selection
reduces to the placeholder fallback. -/
theorem fetch_placeholder_case (fs : MonumentFS) (site_id : String)
    (h : fs.dirExists site_id = false ∨ fs.jpgFiles site_id = []) :
    _fetch_monument_images fs site_id = fetchPlaceholder fs := by
  rcases h with h | h
  · simp [_fetch_monument_images, h]
  · rcases hd : fs.dirExists site_id with _ | _
    · simp [_fetch_monument_images, hd]
    · simp [_fetch_monument_images, hd, h, pySorted, List.insertionSort]

/-- The placeholder fallback returns exactly the resolved placeholder path. -/
theorem fetchPlaceholder_paths (fs : MonumentFS) :
    (fetchPlaceholder fs).paths = [fs.resolve placeholderRelPath] := by
  unfold fetchPlaceholder
  split <;> rfl

/-- After the placeholder fallback, the placeholder file exists. -/
theorem fetchPlaceholder_placeholderExists (fs : MonumentFS) :
    (fetchPlaceholder fs).fs.placeholderExists = true := by
  unfold fetchPlaceholder
  split <;> simp_all

/-- The placeholder fallback writes the file only when it was absent. -/
theorem fetchPlaceholder_wrote (fs : MonumentFS) :
    (fetchPlaceholder fs).wrotePlaceholder = true → fs.placeholderExists = false := by
  unfold fetchPlaceholder
  split <;> simp_all

/-- The placeholder fallback never removes the placeholder file. -/
theorem fetchPlaceholder_mono (fs : MonumentFS) (h : fs.placeholderExists = true) :
    (fetchPlaceholder fs).fs.placeholderExists = true := by
  unfold fetchPlaceholder
  split <;> simp_all

/-- Once the placeholder file exists, no later scene-selection call writes
it again. -/
theorem fetch_no_write_when_placeholder_exists (fs : MonumentFS) (site_id : String)
    (h : fs.placeholderExists = true) :
    (_fetch_monument_images fs site_id).wrotePlaceholder = false := by
  rcases hd : fs.dirExists site_id with _ | _
  · simp [_fetch_monument_images, fetchPlaceholder, hd, h]
  · simp only [_fetch_monument_images, hd]
    simp only [if_true]
    split
    · simp [fetchPlaceholder, h]
    · rfl

/-- The images branch leaves the filesystem untouched. -/
theorem fetch_images_case (fs : MonumentFS) (site_id : String)
    (hd : fs.dirExists site_id = true) (hj : fs.jpgFiles site_id ≠ []) :
    _fetch_monument_images fs site_id =
      { paths := ((pySorted (fs.jpgFiles site_id)).take 5).map fs.resolve,
        fs := fs, wrotePlaceholder := false } := by
  have hne : ((pySorted (fs.jpgFiles site_id)).take 5).isEmpty = false := by
    simp [List.isEmpty_iff, pySorted_take5_eq_nil_iff, pySorted_eq_nil_iff, hj]
  simp [_fetch_monument_images, hd, hne]

/-- C7: scene selection always returns a non-empty list of at most five
absolute paths and never fails; with site JPEGs present it returns the
first at-most-five in lexicographic order, resolved; with none (or no
directory) it returns exactly the placeholder path; the placeholder is
written only when absent, its existence is stable, and after a placeholder
answer no later call ever writes it again. -/
theorem fetch_monument_images_spec (fs : MonumentFS) (site_id : String) :
    (_fetch_monument_images fs site_id).paths ≠ [] ∧
    (_fetch_monument_images fs site_id).paths.length ≤ 5 ∧
    (fs.dirExists site_id = true → fs.jpgFiles site_id ≠ [] →
      (_fetch_monument_images fs site_id).paths =
        ((pySorted (fs.jpgFiles site_id)).take 5).map fs.resolve ∧
      ((pySorted (fs.jpgFiles site_id)).take 5).Sorted (· ≤ ·)) ∧
    (fs.dirExists site_id = false ∨ fs.jpgFiles site_id = [] →
      (_fetch_monument_images fs site_id).paths = [fs.resolve placeholderRelPath]) ∧
    ((_fetch_monument_images fs site_id).wrotePlaceholder = true →
      fs.placeholderExists = false) ∧
    (fs.placeholderExists = true →
      (_fetch_monument_images fs site_id).fs.placeholderExists = true) ∧
    (fs.dirExists site_id = false ∨ fs.jpgFiles site_id = [] →
      (_fetch_monument_images fs site_id).fs.placeholderExists = true ∧
      ∀ site2, (_fetch_monument_images
          (_fetch_monument_images fs site_id).fs site2).wrotePlaceholder = false) := by
  by_cases hcase : fs.dirExists site_id = true ∧ fs.jpgFiles site_id ≠ []
  · obtain ⟨hd, hj⟩ := hcase
    have heq := fetch_images_case fs site_id hd hj
    have hsorted : ((pySorted (fs.jpgFiles site_id)).take 5).Sorted (· ≤ ·) :=
      List.Pairwise.sublist (List.take_sublist 5 _)
        (List.sorted_insertionSort (· ≤ ·) (fs.jpgFiles site_id))
    have hne : (pySorted (fs.jpgFiles site_id)).take 5 ≠ [] := by
      simp [pySorted_take5_eq_nil_iff, pySorted_eq_nil_iff, hj]
    refine ⟨?_, ?_, fun _ _ => ⟨by rw [heq], hsorted⟩, ?_, ?_, fun h => by rw [heq]; exact h, ?_⟩
    · rw [heq]
      simpa using hne
    · rw [heq]
      simp [List.length_take]
    · rintro (h | h)
      · rw [hd] at h; cases h
      · exact absurd h hj
    · rw [heq]
      simp
    · rintro (h | h)
      · rw [hd] at h; cases h
      · exact absurd h hj
  · have hor : fs.dirExists site_id = false ∨ fs.jpgFiles site_id = [] := by
      rcases hd : fs.dirExists site_id with _ | _
      · exact Or.inl rfl
      · exact Or.inr (by tauto)
    have heq := fetch_placeholder_case fs site_id hor
    refine ⟨?_, ?_, ?_, fun _ => ?_, ?_, fun h => ?_, fun _ => ⟨?_, ?_⟩⟩
    · rw [heq, fetchPlaceholder_paths]
      simp
    · rw [heq, fetchPlaceholder_paths]
      simp
    · intro hd hj
      rcases hor with h | h
      · rw [hd] at h; cases h
      · exact absurd h hj
    · rw [heq, fetchPlaceholder_paths]
    · rw [heq]
      exact fetchPlaceholder_wrote fs
    · rw [heq]
      exact fetchPlaceholder_mono fs h
    · rw [heq]
      exact fetchPlaceholder_placeholderExists fs
    · intro site2
      rw [heq]
      exact fetch_no_write_when_placeholder_exists _ _ (fetchPlaceholder_placeholderExists fs)

/-- C7 witness: with no site directory and no placeholder yet, the call
returns exactly the resolved placeholder path and marks it existing, and a
repeat call does not rewrite it. -/
theorem fetch_monument_images_spec_witness :
    (_fetch_monument_images bareMonumentFS "site42").paths =
      [bareMonumentFS.resolve placeholderRelPath] ∧
    (_fetch_monument_images bareMonumentFS "site42").fs.placeholderExists = true ∧
    (_fetch_monument_images
        (_fetch_monument_images bareMonumentFS "site42").fs "site42").wrotePlaceholder = false := by
  have h := fetch_monument_images_spec bareMonumentFS "site42"
  have hor : bareMonumentFS.dirExists "site42" = false ∨
      bareMonumentFS.jpgFiles "site42" = [] := Or.inl rfl
  exact ⟨h.2.2.2.1 hor, (h.2.2.2.2.2.2 hor).1, (h.2.2.2.2.2.2 hor).2 "site42"⟩

/- ── C10 ───────────────────────────────────────────────────────────────── -/

/-- What `rsplit` keeps is a prefix of the original list. -/
theorem beforeLastSpace_prefix (cs : List Char) :
    ∀ r, beforeLastSpace cs = some r → r <+: cs := by
  induction cs with
  | nil => intro r h; cases h
  | cons c cs ih =>
    intro r h
    rcases hb : beforeLastSpace cs with _ | r' <;>
      simp only [beforeLastSpace, hb] at h
    · split at h
      · simp only [Option.some.injEq] at h
        subst h
        exact ⟨c :: cs, rfl⟩
      · cases h
    · simp only [Option.some.injEq] at h
      subst h
      obtain ⟨t, ht⟩ := ih r' hb
      exact ⟨t, by rw [List.cons_append, ht]⟩

/-- Python `rsplit(" ", 1)[0]` is a prefix of its input. -/
theorem rsplitHead_prefix (s : String) : (rsplitHead s).data <+: s.data := by
  unfold rsplitHead
  rcases hb : beforeLastSpace s.data with _ | r
  · exact List.prefix_refl _
  · exact beforeLastSpace_prefix _ _ hb

/-- C10: a narration text longer than 500 characters is truncated before
synthesis — the sent text is the first-500-character window cut back to its
last space with an ellipsis appended, so (ellipsis aside) it is a prefix of
the first 500 characters of the input: no audio ever covers the answer text
beyond that window. -/
theorem synthesize_truncation (text : String) (h : text.length > MAX_TTS_CHARS) :
    truncateForTTS text = rsplitHead (pySlice text MAX_TTS_CHARS) ++ "…" ∧
    (truncateForTTS text).data.dropLast <+: (pySlice text MAX_TTS_CHARS).data ∧
    (pySlice text MAX_TTS_CHARS).data <+: text.data ∧
    (truncateForTTS text).data.getLast? = some '…' ∧
    (truncateForTTS text).length ≤ MAX_TTS_CHARS + 1 := by
  have heq : truncateForTTS text = rsplitHead (pySlice text MAX_TTS_CHARS) ++ "…" := by
    simp [truncateForTTS, h]
  have hdata : (truncateForTTS text).data =
      (rsplitHead (pySlice text MAX_TTS_CHARS)).data ++ ['…'] := by
    rw [heq]
    simp
  have hpre : (rsplitHead (pySlice text MAX_TTS_CHARS)).data <+:
      (pySlice text MAX_TTS_CHARS).data := rsplitHead_prefix _
  refine ⟨heq, ?_, ?_, ?_, ?_⟩
  · rw [hdata, List.dropLast_concat]
    exact hpre
  · simpa [pySlice] using List.take_prefix MAX_TTS_CHARS text.data
  · rw [hdata]
    exact List.getLast?_concat _
  · have h2 := hpre.length_le
    have h3 : (pySlice text MAX_TTS_CHARS).data.length ≤ MAX_TTS_CHARS := by
      simp [pySlice]
    simp only [String.length, hdata, List.length_append, List.length_cons, List.length_nil]
    omega

set_option maxRecDepth 10000 in
/-- C10 witness: a concrete 502-character text is cut at its last space
inside the 500-character window and ends with the ellipsis. -/
theorem synthesize_truncation_witness :
    (truncateForTTS longTTSText).data.getLast? = some '…' ∧
    (truncateForTTS longTTSText).length ≤ MAX_TTS_CHARS + 1 :=
  ⟨(synthesize_truncation longTTSText (by decide)).2.2.2.1,
   (synthesize_truncation longTTSText (by decide)).2.2.2.2⟩

/- ── C8 ────────────────────────────────────────────────────────────────── -/

/-- Every nibble renders to a lowercase hex character. -/
theorem hexChar_mem (n : Nat) : hexChar n ∈ hexAlphabet := by
  by_cases h : n ≤ 15
  · interval_cases n <;> decide
  · have hf : hexChar n = 'f' := by
      unfold hexChar
      repeat rw [if_neg (by omega)]
    rw [hf]
    decide

/-- Every byte of a word rendering is below 256. -/
theorem wordBytes_lt (x : Nat) : ∀ y ∈ wordBytes x, y < 256 := by
  intro y hy
  simp only [wordBytes, List.mem_cons, List.not_mem_nil, or_false] at hy
  rcases hy with rfl | rfl | rfl | rfl <;> exact Nat.mod_lt _ (by norm_num)

/-- The digest is exactly 32 bytes. -/
theorem sha256_length (msg : List Nat) : (sha256 msg).length = 32 := rfl

/-- Each digest byte is below 256: the digest is a 256-bit value. -/
theorem sha256_bytes_lt (msg : List Nat) : ∀ y ∈ sha256 msg, y < 256 := by
  intro y hy
  simp only [sha256, List.mem_append, or_assoc] at hy
  rcases hy with h | h | h | h | h | h | h | h <;> exact wordBytes_lt _ _ h

/-- Rendering bytes as hex doubles the length. -/
theorem length_flatMap_byteHex (l : List Nat) : (l.flatMap byteHex).length = 2 * l.length := by
  induction l with
  | nil => rfl
  | cons x xs ih =>
    simp only [List.flatMap_cons, List.length_append, ih, byteHex, List.length_cons,
      List.length_nil, List.length_cons]
    omega

/-- The hex digest has 64 characters. -/
theorem hexdigest_length (msg : List Nat) : (hexdigest msg).length = 64 := by
  show ((sha256 msg).flatMap byteHex).length = 64
  rw [length_flatMap_byteHex, sha256_length]

/-- Every character of the hex digest is a hex character. -/
theorem hexdigest_mem (msg : List Nat) : ∀ c ∈ hexdigest msg, c ∈ hexAlphabet := by
  intro c hc
  obtain ⟨b, _, hb⟩ := List.mem_flatMap.mp hc
  simp only [byteHex, List.mem_cons, List.not_mem_nil, or_false] at hb
  rcases hb with rfl | rfl <;> exact hexChar_mem _

/-- C8: the fingerprint is a total deterministic function of its string
inputs returning 24 lowercase-hex characters cut from the 64-character
rendering of a 32-byte (256-bit) digest, and it depends only on the
site id, the trimmed-and-lowercased prompt, and the trimmed narration's
first 200 characters — the untruncated narration never reaches the hash. -/
theorem make_hash_shape (prompt bot_text site_id : String) :
    (_make_hash prompt bot_text site_id).length = 24 ∧
    (∀ c ∈ (_make_hash prompt bot_text site_id).data, c ∈ hexAlphabet) ∧
    (sha256 (utf8Encode (rawFingerprintInput prompt bot_text site_id))).length = 32 ∧
    (∀ y ∈ sha256 (utf8Encode (rawFingerprintInput prompt bot_text site_id)), y < 256) ∧
    (∀ prompt2 bot_text2, pyLower (pyStrip prompt2) = pyLower (pyStrip prompt) →
      pySlice (pyStrip bot_text2) 200 = pySlice (pyStrip bot_text) 200 →
      _make_hash prompt2 bot_text2 site_id = _make_hash prompt bot_text site_id) := by
  refine ⟨?_, ?_, sha256_length _, sha256_bytes_lt _, ?_⟩
  · show ((hexdigest (utf8Encode (rawFingerprintInput prompt bot_text site_id))).take 24).length = 24
    rw [List.length_take, hexdigest_length]
    omega
  · intro c hc
    exact hexdigest_mem _ c (List.mem_of_mem_take hc)
  · intro prompt2 bot_text2 hp hb
    simp only [_make_hash, rawFingerprintInput, hp, hb]

/-- C8 witness: a concrete fingerprint has 24 characters, and re-casing
and re-padding the prompt leaves it unchanged. -/
theorem make_hash_shape_witness :
    (_make_hash "Tell me about the fort" "This fort was built in 1565." "site42").length = 24 ∧
    _make_hash " TELL ME ABOUT THE FORT " "This fort was built in 1565." "site42" =
      _make_hash "Tell me about the fort" "This fort was built in 1565." "site42" :=
  ⟨(make_hash_shape "Tell me about the fort" "This fort was built in 1565." "site42").1,
   (make_hash_shape "Tell me about the fort" "This fort was built in 1565." "site42").2.2.2.2
     " TELL ME ABOUT THE FORT " "This fort was built in 1565." (by decide) (by decide)⟩

/- ── C3 ────────────────────────────────────────────────────────────────── -/

set_option maxRecDepth 1000000 in
/-- C3 counterexample: the claim normalizes the narration by truncating to
200 characters and then trimming, but the code trims first and then
truncates.  These two narrations agree after truncate-then-trim (both give
199 `a`s), yet the code hashes 200 `a`s for one and 199 `a`s for the
other, so their fingerprints differ. -/
theorem make_hash_window_counterexample :
    pyStrip (pySlice botTextLeadingSpace 200) = pyStrip (pySlice botTextPlain 200) ∧
    pyLower (pyStrip "x") = pyLower (pyStrip "x") ∧
    _make_hash "x" botTextLeadingSpace "s" ≠ _make_hash "x" botTextPlain "s" := by
  refine ⟨by decide, rfl, by decide⟩

/-- C3 (amended): requests with the same site id, the same
trimmed-and-lowercased prompt, and narrations that agree on the first 200
characters of their trimmed text (trim before the 200-character cut)
always produce the identical fingerprint. -/
theorem make_hash_eq_of_normalized (site_id prompt1 bot_text1 prompt2 bot_text2 : String)
    (hp : pyLower (pyStrip prompt1) = pyLower (pyStrip prompt2))
    (hb : pySlice (pyStrip bot_text1) 200 = pySlice (pyStrip bot_text2) 200) :
    _make_hash prompt1 bot_text1 site_id = _make_hash prompt2 bot_text2 site_id := by
  simp only [_make_hash, rawFingerprintInput, hp, hb]

/-- C3 witness: re-cased, re-padded inputs give the same fingerprint. -/
theorem make_hash_eq_of_normalized_witness :
    _make_hash "  X y  " " hello " "s7" = _make_hash "x Y" "hello" "s7" :=
  make_hash_eq_of_normalized "s7" "  X y  " " hello " "x Y" "hello" (by decide) (by decide)
